import Mathlib

/-
Verification of src/python_ai_ml_kaggle/src/__init__.py.

The repository consists of a single package initializer.  We embed its
semantics shallowly: the initializer body is a list of statements executed
over a module namespace (an ordered list of name/value bindings), in an
environment that may or may not resolve the sibling `utils` module.
A failing statement aborts execution and returns the namespace as it stood
at the point of failure, mirroring CPython's non-atomic module
initialization (a failed module is discarded, but we can observe which
bindings had been made before the failure).

Implicit interpreter-supplied module attributes (`__doc__`, `__name__`,
`__spec__`, `__file__`, ...) are outside this statement-level model: we
model exactly the bindings the source's own statements create.  Following
CPython's compilation of `from m import a, b` (one IMPORT_FROM/STORE_NAME
pair per name), the names of a from-import are looked up and bound one at
a time, left to right.
-/

/-- Values of the Python object model at the granularity the initializer
needs: string constants, lists of strings, and other objects (the two
imported functions), the latter identified by a numeric object identity. -/
inductive PyValue : Type
  | str (s : String)
  | strList (l : List String)
  | obj (id : Nat)
deriving DecidableEq, Repr

/-- A module namespace: bindings from attribute names to values, kept in
binding order (Python dicts preserve insertion order). -/
abbrev PyNamespace := List (String × PyValue)

/-- Attribute lookup in a namespace. -/
def PyNamespace.lookup : PyNamespace → String → Option PyValue
  | [], _ => none
  | (n, v) :: rest, name => if n = name then some v else PyNamespace.lookup rest name

/-- Binding (assignment): overwrites an existing binding in place, else
appends, exactly as insertion into an insertion-ordered dict. -/
def PyNamespace.bind : PyNamespace → String → PyValue → PyNamespace
  | [], name, v => [(name, v)]
  | (n, w) :: rest, name, v =>
      if n = name then (n, v) :: rest else (n, w) :: PyNamespace.bind rest name v

/-- True exactly on string values. -/
def PyValue.isStr : PyValue → Bool
  | .str _ => true
  | .strList _ => false
  | .obj _ => false

/-- The statement forms occurring in the initializer: a bare string
expression (the docstring), an assignment of a literal to a name, and a
from-import of a list of names from a module. -/
inductive Stmt : Type
  | exprStr (s : String)
  | assign (name : String) (v : PyValue)
  | fromImport (module : String) (names : List String)
deriving DecidableEq, Repr

/-- True exactly on from-import statements. -/
def Stmt.isImport : Stmt → Bool
  | .fromImport _ _ => true
  | .exprStr _ => false
  | .assign _ _ => false

/-- True on straight-line literal statements: a bare string expression or
an assignment of a literal.  Neither has any control flow. -/
def Stmt.isLiteralStmt : Stmt → Bool
  | .exprStr _ => true
  | .assign _ _ => true
  | .fromImport _ _ => false

/-- The body of src/python_ai_ml_kaggle/src/__init__.py, statement by
statement: the module docstring (lines 1-6), the two metadata assignments
(lines 8-9), the from-import (line 12; the comment on line 11 compiles to
nothing), and the export-list assignment (line 14). -/
def moduleBody : List Stmt :=
  [ Stmt.exprStr ("\nKaggle Competition Source Code Package\n\nThis package contains production-ready code for Kaggle competitions,\norganized into data, features, models, and utils modules.\n"),
    Stmt.assign ("__version__") (PyValue.str ("0.1.0")),
    Stmt.assign ("__author__") (PyValue.str ("Kaggle Competitor")),
    Stmt.fromImport ("utils") [("set_seed" : String), ("get_logger" : String)],
    Stmt.assign ("__all__") (PyValue.strList [("set_seed" : String), ("get_logger" : String)]) ]

/-- Errors that can abort module initialization: the imported module does
not resolve, or it lacks a requested name. -/
inductive ImportErr : Type
  | moduleNotFound (module : String)
  | nameNotFound (module : String) (name : String)
deriving DecidableEq, Repr

/-- Sequential from-import: each requested name is looked up in the source
module and bound in the importing namespace, left to right; the first
missing name raises, leaving the bindings made so far in place. -/
def importNames (m : String) (u : PyNamespace) (ns : PyNamespace) :
    List String → Except (ImportErr × PyNamespace) PyNamespace
  | [] => Except.ok ns
  | n :: rest =>
      match PyNamespace.lookup u n with
      | some v => importNames m u (PyNamespace.bind ns n v) rest
      | none => Except.error (ImportErr.nameNotFound m n, ns)

/-- One statement of the initializer.  `utils` is the resolution of the
sibling `utils` module (`none` when it cannot be resolved); the single
from-import of the file targets it.  A bare string expression binds
nothing at this level; an assignment binds its literal.  Errors carry the
namespace as it stood when the statement raised. -/
def execStmt (utils : Option PyNamespace) (ns : PyNamespace) :
    Stmt → Except (ImportErr × PyNamespace) PyNamespace
  | .exprStr _ => Except.ok ns
  | .assign name v => Except.ok (PyNamespace.bind ns name v)
  | .fromImport m names =>
      match utils with
      | none => Except.error (ImportErr.moduleNotFound m, ns)
      | some u => importNames m u ns names

/-- Execute a statement list in order; the first error aborts. -/
def execStmts (utils : Option PyNamespace) (ns : PyNamespace) :
    List Stmt → Except (ImportErr × PyNamespace) PyNamespace
  | [] => Except.ok ns
  | s :: rest =>
      match execStmt utils ns s with
      | Except.ok ns1 => execStmts utils ns1 rest
      | Except.error e => Except.error e

/-- Initialize the package: execute the initializer's body from an empty
namespace, in an environment where the sibling `utils` module resolves to
`utils` (or fails to resolve, when `none`). -/
def initModule (utils : Option PyNamespace) : Except (ImportErr × PyNamespace) PyNamespace :=
  execStmts utils [] moduleBody

/-- Modelled from the spec: the `utils` submodule is referenced by the
initializer but absent from the provided source.  Per the spec it defines
the two symbols `set_seed` and `get_logger`; we model them as two distinct
function objects. -/
def specUtils : PyNamespace :=
  [(("set_seed" : String), PyValue.obj 0), (("get_logger" : String), PyValue.obj 1)]

/-- The four attribute names the spec lists as the package's exposed
surface. -/
abbrev fourPublicNames : List String :=
  [("set_seed" : String), ("get_logger" : String), ("__version__" : String), ("__author__" : String)]

/-- The physical lines of src/python_ai_ml_kaggle/src/__init__.py, in
order.  The file's last line carries no trailing newline, so it has 14
physical lines while a newline-terminator count gives 13. -/
def sourceLines : List String :=
  [ ("\"\"\""),
    ("Kaggle Competition Source Code Package"),
    (""),
    ("This package contains production-ready code for Kaggle competitions,"),
    ("organized into data, features, models, and utils modules."),
    ("\"\"\""),
    (""),
    ("__version__ = \"0.1.0\""),
    ("__author__ = \"Kaggle Competitor\""),
    (""),
    ("# Import commonly used functions"),
    ("from .utils import set_seed, get_logger"),
    (""),
    ("__all__ = [\"set_seed\", \"get_logger\"]") ]

/-- Syntactic category of a physical source line. -/
inductive LineKind : Type
  | docstring
  | blank
  | comment
  | metadataAssign
  | importLine
  | exportAssign
deriving DecidableEq, BEq, Repr

/-- True on a line that is exactly a triple-quote docstring delimiter. -/
def isDocDelim (l : String) : Bool := l = ("\"\"\"")

/-- Prefix test on the character lists underlying two strings. -/
def lineStartsWith (l p : String) : Bool := List.isPrefixOf p.data l.data

/-- Classify the source lines, tracking whether we are inside the
docstring: a delimiter line opens or closes it, every line within it is a
docstring line; outside it, empty lines are blank, lines starting with a
hash are comments, a line starting with from is the import, the line
assigning the export list starts with the export-list name, and the
remaining assignments are metadata. -/
def classifyFrom : Bool → List String → List LineKind
  | _, [] => []
  | true, l :: rest => LineKind.docstring :: classifyFrom (!(isDocDelim l)) rest
  | false, l :: rest =>
      if isDocDelim l then LineKind.docstring :: classifyFrom true rest
      else
        (if l = ("") then LineKind.blank
         else if lineStartsWith l ("#") then LineKind.comment
         else if lineStartsWith l ("from ") then LineKind.importLine
         else if lineStartsWith l ("__all__") then LineKind.exportAssign
         else LineKind.metadataAssign) :: classifyFrom false rest

/-- The classification of the initializer's physical lines. -/
def lineKinds : List LineKind := classifyFrom false sourceLines

/-- The namespace after the two metadata assignments (lines 8-9), before
the from-import on line 12 runs. -/
def metaBindings : PyNamespace :=
  [(("__version__" : String), PyValue.str ("0.1.0")),
   (("__author__" : String), PyValue.str ("Kaggle Competitor"))]

/-- The package namespace after a successful initialization against the
spec-modelled `utils` module. -/
def okNamespace : PyNamespace :=
  [(("__version__" : String), PyValue.str ("0.1.0")),
   (("__author__" : String), PyValue.str ("Kaggle Competitor")),
   (("set_seed" : String), PyValue.obj 0),
   (("get_logger" : String), PyValue.obj 1),
   (("__all__" : String), PyValue.strList [("set_seed" : String), ("get_logger" : String)])]

lemma initModule_none :
    initModule none = Except.error (ImportErr.moduleNotFound ("utils"), metaBindings) := rfl

lemma initModule_some (u : PyNamespace) :
    initModule (some u) =
      match PyNamespace.lookup u ("set_seed") with
      | none => Except.error (ImportErr.nameNotFound ("utils") ("set_seed"), metaBindings)
      | some v1 =>
        match PyNamespace.lookup u ("get_logger") with
        | none =>
            Except.error (ImportErr.nameNotFound ("utils") ("get_logger"),
              [(("__version__" : String), PyValue.str ("0.1.0")),
               (("__author__" : String), PyValue.str ("Kaggle Competitor")),
               (("set_seed" : String), v1)])
        | some v2 =>
            Except.ok
              [(("__version__" : String), PyValue.str ("0.1.0")),
               (("__author__" : String), PyValue.str ("Kaggle Competitor")),
               (("set_seed" : String), v1),
               (("get_logger" : String), v2),
               (("__all__" : String), PyValue.strList [("set_seed" : String), ("get_logger" : String)])] := by
  cases h1 : PyNamespace.lookup u ("set_seed") with
  | none =>
      simp only [initModule, execStmts, moduleBody, execStmt, importNames, h1,
        PyNamespace.bind]
      rfl
  | some v1 =>
      cases h2 : PyNamespace.lookup u ("get_logger") with
      | none =>
          simp only [initModule, execStmts, moduleBody, execStmt, importNames, h1, h2,
            PyNamespace.bind]
          rfl
      | some v2 =>
          simp only [initModule, execStmts, moduleBody, execStmt, importNames, h1, h2,
            PyNamespace.bind]
          rfl

lemma initModule_ok_elim (utils : Option PyNamespace) (ns : PyNamespace)
    (h : initModule utils = Except.ok ns) :
    ∃ u v1 v2, utils = some u ∧ PyNamespace.lookup u ("set_seed") = some v1 ∧
      PyNamespace.lookup u ("get_logger") = some v2 ∧
      ns = [(("__version__" : String), PyValue.str ("0.1.0")),
            (("__author__" : String), PyValue.str ("Kaggle Competitor")),
            (("set_seed" : String), v1),
            (("get_logger" : String), v2),
            (("__all__" : String), PyValue.strList [("set_seed" : String), ("get_logger" : String)])] := by
  cases utils with
  | none => rw [initModule_none] at h; exact absurd h (by simp)
  | some u =>
      rw [initModule_some u] at h
      cases h1 : PyNamespace.lookup u ("set_seed") with
      | none => rw [h1] at h; exact absurd h (by simp)
      | some v1 =>
          rw [h1] at h
          cases h2 : PyNamespace.lookup u ("get_logger") with
          | none => rw [h2] at h; exact absurd h (by simp)
          | some v2 =>
              rw [h2] at h
              injection h with h
              exact ⟨u, v1, v2, rfl, h1, h2, h.symm⟩

lemma initModule_error_elim (utils : Option PyNamespace) (e : ImportErr) (pns : PyNamespace)
    (h : initModule utils = Except.error (e, pns)) :
    pns = metaBindings ∨
      ∃ v1, pns = [(("__version__" : String), PyValue.str ("0.1.0")),
                   (("__author__" : String), PyValue.str ("Kaggle Competitor")),
                   (("set_seed" : String), v1)] := by
  cases utils with
  | none =>
      rw [initModule_none] at h
      injection h with h
      exact Or.inl (congrArg Prod.snd h).symm
  | some u =>
      rw [initModule_some u] at h
      cases h1 : PyNamespace.lookup u ("set_seed") with
      | none =>
          rw [h1] at h
          injection h with h
          exact Or.inl (congrArg Prod.snd h).symm
      | some v1 =>
          rw [h1] at h
          cases h2 : PyNamespace.lookup u ("get_logger") with
          | none =>
              rw [h2] at h
              injection h with h
              exact Or.inr ⟨v1, (congrArg Prod.snd h).symm⟩
          | some v2 =>
              rw [h2] at h
              exact absurd h (by simp)

/-- C1: importing the package (against the spec-modelled `utils`) succeeds,
but the resulting namespace does not consist of exactly the four attributes
set_seed, get_logger, __version__, __author__: it also binds __all__. -/
theorem c1_counterexample :
    initModule (some specUtils) = Except.ok okNamespace ∧
    PyNamespace.lookup okNamespace ("__all__") =
      some (PyValue.strList [("set_seed" : String), ("get_logger" : String)]) ∧
    ¬ (("__all__" : String) ∈ fourPublicNames) :=
  ⟨rfl, rfl, by decide⟩

/-- C1 (amended): importing the package against the spec-modelled `utils`
succeeds without raising, and the namespace the initializer's statements
create binds exactly the five attributes __version__, __author__,
set_seed, get_logger and __all__, in that order (interpreter-supplied
attributes such as __doc__ are outside the statement-level model). -/
theorem c1_import_succeeds_five_attributes :
    initModule (some specUtils) = Except.ok okNamespace ∧
    List.map Prod.fst okNamespace =
      [("__version__" : String), ("__author__" : String), ("set_seed" : String),
       ("get_logger" : String), ("__all__" : String)] :=
  ⟨rfl, rfl⟩

/-- C2: whenever package initialization succeeds, the export list __all__
is bound to exactly the two-element list ["set_seed", "get_logger"], in
that order. -/
theorem c2_all_is_exact (utils : Option PyNamespace) (ns : PyNamespace)
    (h : initModule utils = Except.ok ns) :
    PyNamespace.lookup ns ("__all__") =
      some (PyValue.strList [("set_seed" : String), ("get_logger" : String)]) := by
  obtain ⟨u, v1, v2, hu, h1, h2, rfl⟩ := initModule_ok_elim utils ns h
  rfl

/-- C2 witness: the export list of the concrete successful initialization. -/
theorem c2_witness :
    PyNamespace.lookup okNamespace ("__all__") =
      some (PyValue.strList [("set_seed" : String), ("get_logger" : String)]) :=
  c2_all_is_exact (some specUtils) okNamespace rfl

/-- C3: whenever package initialization succeeds, __version__ is bound to
the literal string "0.1.0". -/
theorem c3_version_literal (utils : Option PyNamespace) (ns : PyNamespace)
    (h : initModule utils = Except.ok ns) :
    PyNamespace.lookup ns ("__version__") = some (PyValue.str ("0.1.0")) := by
  obtain ⟨u, v1, v2, hu, h1, h2, rfl⟩ := initModule_ok_elim utils ns h
  rfl

/-- C3 witness: __version__ of the concrete successful initialization. -/
theorem c3_witness :
    PyNamespace.lookup okNamespace ("__version__") = some (PyValue.str ("0.1.0")) :=
  c3_version_literal (some specUtils) okNamespace rfl

/-- C4: whenever package initialization succeeds, __author__ is bound to
the literal string "Kaggle Competitor". -/
theorem c4_author_literal (utils : Option PyNamespace) (ns : PyNamespace)
    (h : initModule utils = Except.ok ns) :
    PyNamespace.lookup ns ("__author__") = some (PyValue.str ("Kaggle Competitor")) := by
  obtain ⟨u, v1, v2, hu, h1, h2, rfl⟩ := initModule_ok_elim utils ns h
  rfl

/-- C4 witness: __author__ of the concrete successful initialization. -/
theorem c4_witness :
    PyNamespace.lookup okNamespace ("__author__") = some (PyValue.str ("Kaggle Competitor")) :=
  c4_author_literal (some specUtils) okNamespace rfl

/-- C5: package initialization fails if and only if the `utils` module
cannot be resolved or it lacks set_seed or lacks get_logger; there is no
other failure mode. -/
theorem c5_failure_iff (utils : Option PyNamespace) :
    (∃ e, initModule utils = Except.error e) ↔
      (utils = none ∨ ∃ u, utils = some u ∧
        (PyNamespace.lookup u ("set_seed") = none ∨
         PyNamespace.lookup u ("get_logger") = none)) := by
  cases utils with
  | none =>
      constructor
      · intro _; exact Or.inl rfl
      · intro _; exact ⟨(ImportErr.moduleNotFound ("utils"), metaBindings), initModule_none⟩
  | some u =>
      rw [initModule_some u]
      cases h1 : PyNamespace.lookup u ("set_seed") with
      | none => simp [h1]
      | some v1 =>
          cases h2 : PyNamespace.lookup u ("get_logger") with
          | none => simp [h1, h2]
          | some v2 => simp [h1, h2]

/-- C6: after a successful initialization against any resolution of the
`utils` module, the package bindings of set_seed and get_logger are the
very same objects as the corresponding bindings inside `utils`. -/
theorem c6_reexport_same_objects (u : PyNamespace) (ns : PyNamespace)
    (h : initModule (some u) = Except.ok ns) :
    PyNamespace.lookup ns ("set_seed") = PyNamespace.lookup u ("set_seed") ∧
    PyNamespace.lookup ns ("get_logger") = PyNamespace.lookup u ("get_logger") := by
  obtain ⟨u1, v1, v2, hu, h1, h2, rfl⟩ := initModule_ok_elim (some u) ns h
  injection hu with hu
  subst hu
  constructor
  · rw [h1]; rfl
  · rw [h2]; rfl

/-- C6 witness: the concrete successful initialization re-exports the two
objects of the spec-modelled `utils` unchanged. -/
theorem c6_witness :
    PyNamespace.lookup okNamespace ("set_seed") = PyNamespace.lookup specUtils ("set_seed") ∧
    PyNamespace.lookup okNamespace ("get_logger") = PyNamespace.lookup specUtils ("get_logger") :=
  c6_reexport_same_objects specUtils okNamespace rfl

/-- C7: the claimed line accounting is false: the docstring spans 6
physical lines, not 8 (and the file has 14 physical lines, 13 of them
newline-terminated). -/
theorem c7_counterexample :
    ¬ (sourceLines.length = 13 ∧ List.count LineKind.docstring lineKinds = 8 ∧
       List.count LineKind.metadataAssign lineKinds = 2 ∧
       List.count LineKind.importLine lineKinds = 1 ∧
       List.count LineKind.exportAssign lineKinds = 1) := by
  decide

/-- C7 (amended): the source file has 14 physical lines (13 counted by
newline terminators, the last line having no trailing newline), of which
exactly 6 are docstring lines, 2 are metadata assignments, 1 is an import,
1 is the export-list assignment, 3 are blank and 1 is a comment. -/
theorem c7_line_accounting :
    sourceLines.length = 14 ∧ List.count LineKind.docstring lineKinds = 6 ∧
    List.count LineKind.metadataAssign lineKinds = 2 ∧
    List.count LineKind.importLine lineKinds = 1 ∧
    List.count LineKind.exportAssign lineKinds = 1 ∧
    List.count LineKind.blank lineKinds = 3 ∧
    List.count LineKind.comment lineKinds = 1 := by
  decide

/-- C8: the initializer body contains exactly one import action, every one
of its statements is either that from-import or a straight-line literal
statement (docstring expression or literal assignment, with no branches,
loops or calls), the one import is the from-import of set_seed and
get_logger from utils, and the last statement is the export-list
assignment. -/
theorem c8_single_import_straight_line :
    (List.filter Stmt.isImport moduleBody).length = 1 ∧
    List.all moduleBody (fun s => Stmt.isImport s || Stmt.isLiteralStmt s) = true ∧
    Stmt.fromImport ("utils") [("set_seed" : String), ("get_logger" : String)] ∈ moduleBody ∧
    List.getLast? moduleBody =
      some (Stmt.assign ("__all__")
        (PyValue.strList [("set_seed" : String), ("get_logger" : String)])) := by
  decide

/-- C9: the claim that every binding other than the two re-exported names
is an immutable string constant is false: initialization also binds
__all__, whose value is a list of strings, not a string. -/
theorem c9_counterexample :
    initModule (some specUtils) = Except.ok okNamespace ∧
    PyNamespace.lookup okNamespace ("__all__") =
      some (PyValue.strList [("set_seed" : String), ("get_logger" : String)]) ∧
    PyValue.isStr (PyValue.strList [("set_seed" : String), ("get_logger" : String)]) = false ∧
    ¬ (("__all__" : String) ∈ [("set_seed" : String), ("get_logger" : String)]) :=
  ⟨rfl, rfl, rfl, by decide⟩

/-- C9 (amended): every binding a successful initialization creates, other
than the two re-exported function names, is either a string constant or
the export-list binding __all__, whose value is the list of strings
["set_seed", "get_logger"] (in Python a list is a mutable object). -/
theorem c9_bindings_strings_or_export_list (utils : Option PyNamespace) (ns : PyNamespace)
    (h : initModule utils = Except.ok ns) :
    ∀ p, p ∈ ns → p.1 ≠ ("set_seed" : String) → p.1 ≠ ("get_logger" : String) →
      PyValue.isStr p.2 = true ∨
        p = ((("__all__" : String),
              PyValue.strList [("set_seed" : String), ("get_logger" : String)])) := by
  obtain ⟨u, v1, v2, hu, h1, h2, rfl⟩ := initModule_ok_elim utils ns h
  intro p hp hne1 hne2
  simp only [List.mem_cons, List.not_mem_nil, or_false] at hp
  rcases hp with rfl | rfl | rfl | rfl | rfl
  · exact Or.inl rfl
  · exact Or.inl rfl
  · exact absurd rfl hne1
  · exact absurd rfl hne2
  · exact Or.inr rfl

/-- C9 witness: the __version__ binding of the concrete successful
initialization is a string constant. -/
theorem c9_witness :
    PyValue.isStr ((("__version__" : String), PyValue.str ("0.1.0")).2) = true ∨
      ((("__version__" : String), PyValue.str ("0.1.0"))) =
        ((("__all__" : String),
          PyValue.strList [("set_seed" : String), ("get_logger" : String)])) :=
  c9_bindings_strings_or_export_list (some specUtils) okNamespace rfl
    ((("__version__" : String), PyValue.str ("0.1.0"))) (by decide) (by decide) (by decide)

/-- C10: the claim that neither set_seed nor get_logger is ever bound when
the import fails is false: when `utils` resolves and provides set_seed but
lacks get_logger, the sequential from-import has already bound set_seed at
the moment it raises. -/
theorem c10_counterexample :
    initModule (some [(("set_seed" : String), PyValue.obj 0)]) =
      Except.error (ImportErr.nameNotFound ("utils") ("get_logger"),
        [(("__version__" : String), PyValue.str ("0.1.0")),
         (("__author__" : String), PyValue.str ("Kaggle Competitor")),
         (("set_seed" : String), PyValue.obj 0)]) ∧
    PyNamespace.lookup
        [(("__version__" : String), PyValue.str ("0.1.0")),
         (("__author__" : String), PyValue.str ("Kaggle Competitor")),
         (("set_seed" : String), PyValue.obj 0)] ("set_seed") = some (PyValue.obj 0) :=
  ⟨rfl, rfl⟩

/-- C10 (amended): initialization is not atomic on failure: whenever it
fails, __version__ and __author__ have already been assigned, while
neither get_logger nor __all__ is ever bound (set_seed, however, is
already bound in the failure case where `utils` provides set_seed but
lacks get_logger). -/
theorem c10_partial_on_failure (utils : Option PyNamespace) (e : ImportErr) (pns : PyNamespace)
    (h : initModule utils = Except.error (e, pns)) :
    PyNamespace.lookup pns ("__version__") = some (PyValue.str ("0.1.0")) ∧
    PyNamespace.lookup pns ("__author__") = some (PyValue.str ("Kaggle Competitor")) ∧
    PyNamespace.lookup pns ("get_logger") = none ∧
    PyNamespace.lookup pns ("__all__") = none := by
  rcases initModule_error_elim utils e pns h with h1 | ⟨v1, h1⟩ <;> subst h1 <;>
    exact ⟨rfl, rfl, rfl, rfl⟩

/-- C10 witness: the partial namespace of the failure where `utils` does
not resolve. -/
theorem c10_witness :
    PyNamespace.lookup metaBindings ("__version__") = some (PyValue.str ("0.1.0")) ∧
    PyNamespace.lookup metaBindings ("__author__") = some (PyValue.str ("Kaggle Competitor")) ∧
    PyNamespace.lookup metaBindings ("get_logger") = none ∧
    PyNamespace.lookup metaBindings ("__all__") = none :=
  c10_partial_on_failure none (ImportErr.moduleNotFound ("utils")) metaBindings rfl
